import Mathlib

/-!
Verification of the Bird Buddy event processor (`apps/bb_processor.py`).

The development shallowly embeds the data model, the report-token
validator, the reconciliation engine (`ReportFormatter.report`) and the
presentation renderer (`SightedBird.create_slack_blocks`,
`ReportFormatter.format_slack_message`).  External collaborators
(the PyJWT decode primitive, `json.loads`, and the wikipedia lookup)
are modelled executably, following the contract the program relies on.
-/

namespace BB

/-! ## JSON values and a JSON parser

Model of the `json` collaborator: JSON values and a recursive-descent
parser over character lists.  Numbers keep their raw lexeme, which is
all the program ever needs. -/

/-- JSON value. Object members keep their textual order; `num` stores the
raw lexeme of the number. -/
inductive Json where
  | null : Json
  | bool (b : Bool) : Json
  | num (lexeme : String) : Json
  | str (s : String) : Json
  | arr (elems : List Json) : Json
  | obj (members : List (String × Json)) : Json

/-- Opening-brace character (code point 123). -/
def lbrace : Char := Char.ofNat 123

/-- Closing-brace character (code point 125). -/
def rbrace : Char := Char.ofNat 125

/-- Skip JSON whitespace. -/
def skipWs : List Char → List Char
  | [] => []
  | c :: rest =>
    if c = ' ' ∨ c = '\t' ∨ c = '\n' ∨ c = '\r' then skipWs rest else c :: rest

/-- Value of a hexadecimal digit. -/
def hexVal (c : Char) : Option Nat :=
  let n := c.toNat
  if 48 ≤ n ∧ n ≤ 57 then some (n - 48)
  else if 97 ≤ n ∧ n ≤ 102 then some (n - 97 + 10)
  else if 65 ≤ n ∧ n ≤ 70 then some (n - 65 + 10)
  else none

/-- Parse the body of a JSON string after the opening quote; returns the
decoded characters and the input following the closing quote. -/
def parseStringBody : Nat → List Char → Option (List Char × List Char)
  | 0, _ => none
  | fuel + 1, input =>
    match input with
    | [] => none
    | '"' :: rest => some ([], rest)
    | '\\' :: e :: rest =>
      if e = '"' ∨ e = '\\' ∨ e = '/' then
        (parseStringBody fuel rest).map fun p => (e :: p.1, p.2)
      else if e = 'b' then
        (parseStringBody fuel rest).map fun p => (Char.ofNat 8 :: p.1, p.2)
      else if e = 'f' then
        (parseStringBody fuel rest).map fun p => (Char.ofNat 12 :: p.1, p.2)
      else if e = 'n' then
        (parseStringBody fuel rest).map fun p => (Char.ofNat 10 :: p.1, p.2)
      else if e = 'r' then
        (parseStringBody fuel rest).map fun p => (Char.ofNat 13 :: p.1, p.2)
      else if e = 't' then
        (parseStringBody fuel rest).map fun p => (Char.ofNat 9 :: p.1, p.2)
      else if e = 'u' then
        match rest with
        | h1 :: h2 :: h3 :: h4 :: rest2 =>
          match hexVal h1, hexVal h2, hexVal h3, hexVal h4 with
          | some a, some b, some c, some d =>
            (parseStringBody fuel rest2).map fun p =>
              (Char.ofNat (a * 4096 + b * 256 + c * 16 + d) :: p.1, p.2)
          | _, _, _, _ => none
        | _ => none
      else none
    | c :: rest =>
      if c.toNat < 32 then none
      else (parseStringBody fuel rest).map fun p => (c :: p.1, p.2)

/-- Parse an optional exponent part after the given number lexeme. -/
def parseExpPart (lexeme : List Char) (cs : List Char) : Option (Json × List Char) :=
  match cs with
  | c :: rest =>
    if c = 'e' ∨ c = 'E' then
      let signAndRest : List Char × List Char :=
        match rest with
        | s :: r2 => if s = '+' ∨ s = '-' then ([s], r2) else ([], rest)
        | [] => ([], rest)
      let es := signAndRest.2.takeWhile Char.isDigit
      let rest2 := signAndRest.2.dropWhile Char.isDigit
      if es = [] then none
      else some (Json.num (String.mk (lexeme ++ c :: (signAndRest.1 ++ es))), rest2)
    else some (Json.num (String.mk lexeme), cs)
  | [] => some (Json.num (String.mk lexeme), [])

/-- Parse a JSON number starting at the head of the input. -/
def parseNumber (cs : List Char) : Option (Json × List Char) :=
  let signAndRest : List Char × List Char :=
    match cs with
    | c :: rest => if c = '-' then ([c], rest) else ([], cs)
    | [] => ([], cs)
  let ds := signAndRest.2.takeWhile Char.isDigit
  let rest1 := signAndRest.2.dropWhile Char.isDigit
  if ds = [] then none
  else
    match rest1 with
    | '.' :: r =>
      let fs := r.takeWhile Char.isDigit
      let rest2 := r.dropWhile Char.isDigit
      if fs = [] then none
      else parseExpPart (signAndRest.1 ++ ds ++ '.' :: fs) rest2
    | _ => parseExpPart (signAndRest.1 ++ ds) rest1

mutual

/-- Parse one JSON value, skipping leading whitespace. -/
def parseValue : Nat → List Char → Option (Json × List Char)
  | 0, _ => none
  | fuel + 1, input =>
    match skipWs input with
    | [] => none
    | 'n' :: 'u' :: 'l' :: 'l' :: rest => some (Json.null, rest)
    | 't' :: 'r' :: 'u' :: 'e' :: rest => some (Json.bool true, rest)
    | 'f' :: 'a' :: 'l' :: 's' :: 'e' :: rest => some (Json.bool false, rest)
    | '"' :: rest =>
      (parseStringBody (fuel + 1) rest).map fun p => (Json.str (String.mk p.1), p.2)
    | c :: rest =>
      if c = lbrace then
        match skipWs rest with
        | c2 :: rest2 =>
          if c2 = rbrace then some (Json.obj [], rest2)
          else (parseMembers fuel (c2 :: rest2)).map fun p => (Json.obj p.1, p.2)
        | [] => none
      else if c = '[' then
        match skipWs rest with
        | c2 :: rest2 =>
          if c2 = ']' then some (Json.arr [], rest2)
          else (parseElems fuel (c2 :: rest2)).map fun p => (Json.arr p.1, p.2)
        | [] => none
      else if c = '-' ∨ c.isDigit then parseNumber (c :: rest)
      else none

/-- Parse the members of a JSON object after the opening brace. -/
def parseMembers : Nat → List Char → Option (List (String × Json) × List Char)
  | 0, _ => none
  | fuel + 1, input =>
    match skipWs input with
    | '"' :: rest =>
      match parseStringBody (fuel + 1) rest with
      | none => none
      | some (keyChars, rest1) =>
        match skipWs rest1 with
        | ':' :: rest2 =>
          match parseValue fuel rest2 with
          | none => none
          | some (v, rest3) =>
            match skipWs rest3 with
            | ',' :: rest4 =>
              (parseMembers fuel rest4).map fun p =>
                ((String.mk keyChars, v) :: p.1, p.2)
            | c :: rest4 =>
              if c = rbrace then some ([(String.mk keyChars, v)], rest4) else none
            | [] => none
        | _ => none
    | _ => none

/-- Parse the elements of a JSON array after the opening bracket. -/
def parseElems : Nat → List Char → Option (List Json × List Char)
  | 0, _ => none
  | fuel + 1, input =>
    match parseValue fuel input with
    | none => none
    | some (v, rest1) =>
      match skipWs rest1 with
      | ',' :: rest2 => (parseElems fuel rest2).map fun p => (v :: p.1, p.2)
      | ']' :: rest2 => some ([v], rest2)
      | _ => none

end

/-- Parse a complete JSON document from a character list: one value with
nothing but whitespace around it.  Models `json.loads`. -/
def parseJsonChars (cs : List Char) : Option Json :=
  match parseValue (cs.length + 1) cs with
  | some (v, rest) => if skipWs rest = [] then some v else none
  | none => none

/-! ## Base64url and the signed-token (JWT) decode collaborator

Model of the PyJWT decode primitive the validator calls with signature
verification disabled: three dot-separated base64url segments; the
header and the payload must decode to JSON objects; the payload object
is returned.  The signature segment is base64url-decoded but otherwise
ignored (verification is explicitly skipped). -/

/-- Value of a base64url alphabet character. -/
def b64Val (c : Char) : Option Nat :=
  let n := c.toNat
  if 65 ≤ n ∧ n ≤ 90 then some (n - 65)
  else if 97 ≤ n ∧ n ≤ 122 then some (n - 97 + 26)
  else if 48 ≤ n ∧ n ≤ 57 then some (n - 48 + 52)
  else if c = '-' then some 62
  else if c = '_' then some 63
  else none

/-- Character of a 6-bit value in the base64url alphabet. -/
def b64Chr (n : Nat) : Char :=
  if n < 26 then Char.ofNat (65 + n)
  else if n < 52 then Char.ofNat (97 + (n - 26))
  else if n < 62 then Char.ofNat (48 + (n - 52))
  else if n = 62 then '-'
  else '_'

/-- Decode an unpadded base64url character list into bytes. -/
def b64DecodeChars : List Char → Option (List Nat)
  | [] => some []
  | [_] => none
  | [c1, c2] =>
    match b64Val c1, b64Val c2 with
    | some v1, some v2 => some [v1 * 4 + v2 / 16]
    | _, _ => none
  | [c1, c2, c3] =>
    match b64Val c1, b64Val c2, b64Val c3 with
    | some v1, some v2, some v3 => some [v1 * 4 + v2 / 16, v2 % 16 * 16 + v3 / 4]
    | _, _, _ => none
  | c1 :: c2 :: c3 :: c4 :: rest =>
    match b64Val c1, b64Val c2, b64Val c3, b64Val c4 with
    | some v1, some v2, some v3, some v4 =>
      (b64DecodeChars rest).map fun bs =>
        (v1 * 4 + v2 / 16) :: (v2 % 16 * 16 + v3 / 4) :: (v3 % 4 * 64 + v4) :: bs
    | _, _, _, _ => none

/-- Encode bytes as an unpadded base64url character list. -/
def b64EncodeBytes : List Nat → List Char
  | [] => []
  | [b1] => [b64Chr (b1 / 4), b64Chr (b1 % 4 * 16)]
  | [b1, b2] => [b64Chr (b1 / 4), b64Chr (b1 % 4 * 16 + b2 / 16), b64Chr (b2 % 16 * 4)]
  | b1 :: b2 :: b3 :: rest =>
    b64Chr (b1 / 4) :: b64Chr (b1 % 4 * 16 + b2 / 16) ::
      b64Chr (b2 % 16 * 4 + b3 / 64) :: b64Chr (b3 % 64) :: b64EncodeBytes rest

/-- Interpret bytes as ASCII characters; bytes outside the ASCII range are
rejected (the tokens of interest are all ASCII). -/
def bytesToChars : List Nat → Option (List Char)
  | [] => some []
  | b :: bs =>
    if b < 128 then (bytesToChars bs).map fun cs => Char.ofNat b :: cs else none

/-- Split a character list on the dot separator. -/
def splitOnDot : List Char → List (List Char)
  | [] => [[]]
  | c :: cs =>
    let r := splitOnDot cs
    if c = '.' then [] :: r
    else
      match r with
      | s :: ss => (c :: s) :: ss
      | [] => [[c]]

/-- Decode one base64url segment into a JSON value. -/
def decodeSegment (seg : List Char) : Option Json := do
  let bytes ← b64DecodeChars seg
  let chars ← bytesToChars bytes
  parseJsonChars chars

/-- Model of `jwt.decode(value, options=dict(verify_signature=False))` from
PyJWT: the token must consist of three dot-separated base64url segments,
header and payload must be JSON objects, and the payload's members are
returned.  All failure modes collapse to `none`, matching the single
`PyJWTError` class the caller catches. -/
def jwtDecode (token : String) : Option (List (String × Json)) :=
  match splitOnDot token.data with
  | [h, p, s] =>
    match decodeSegment h with
    | some (Json.obj _) =>
      match decodeSegment p with
      | some (Json.obj members) =>
        match b64DecodeChars s with
        | some _ => some members
        | none => none
      | _ => none
    | _ => none
  | _ => none

/-- Last-wins lookup of a key among JSON object members, modelling a
Python dict built from parsed JSON. -/
def lookupMember (members : List (String × Json)) (key : String) : Option Json :=
  (members.reverse.find? fun m => m.fst = key).map fun m => m.snd

/-! ## The report-token validator

Embedding of `SightingReport.validate_report_token`
(`apps/bb_processor.py`, lines 130-139).  The Python control flow is:

    if value:
        try:
            decoded = jwt.decode(value, options=dict(verify_signature=False))
        except jwt.exceptions.PyJWTError as e:
            raise ValueError('Invalid JWT token') from e
    return json.loads(decoded['reportToken'])

Every way this code can leave the validator is represented by one
outcome constructor. -/

/-- Possible outcomes of running `validate_report_token` on a token
string.  `tokenDecodeError` is the `ValueError('Invalid JWT token')`
the validator raises itself (the spec's `TokenDecodeError`);
`innerJsonValueError` is the `json.JSONDecodeError` (a `ValueError`)
from parsing the inner string; `uncaughtKeyError`,
`uncaughtTypeError` and `uncaughtUnboundLocalError` are exceptions
that escape the validator without being part of its error taxonomy. -/
inductive TokenOutcome where
  | ok (v : Json)
  | tokenDecodeError
  | innerJsonValueError
  | uncaughtKeyError
  | uncaughtTypeError
  | uncaughtUnboundLocalError

/-- Embedding of `SightingReport.validate_report_token`.  An empty string
is falsy, so the decode is skipped and the trailing `decoded['reportToken']`
dereferences a never-assigned local (`UnboundLocalError`).  A present
payload key that is not a string makes `json.loads` raise `TypeError`;
a missing key raises `KeyError`; both are outside the `try` block. -/
def validate_report_token (value : String) : TokenOutcome :=
  if value = "" then TokenOutcome.uncaughtUnboundLocalError
  else
    match jwtDecode value with
    | none => TokenOutcome.tokenDecodeError
    | some members =>
      match lookupMember members "reportToken" with
      | none => TokenOutcome.uncaughtKeyError
      | some (Json.str s) =>
        match parseJsonChars s.data with
        | some v => TokenOutcome.ok v
        | none => TokenOutcome.innerJsonValueError
      | some _ => TokenOutcome.uncaughtTypeError

/-- Assemble a token from ASCII header and payload texts: base64url-encode
each and join with a third, well-formed signature segment. -/
def mkToken (header payload : String) : String :=
  String.mk (b64EncodeBytes (header.data.map Char.toNat)) ++ "." ++
    String.mk (b64EncodeBytes (payload.data.map Char.toNat)) ++ "." ++ "sig"

/-! ## Domain model

Embedding of the pydantic models of `apps/bb_processor.py`.  UUIDs,
timestamps and URLs are carried as strings: their syntactic validation
happens at model construction in the source and none of the verified
operations depends on it. -/

/-- Embedding of `Feeder`. -/
structure Feeder where
  id : String
  name : String
  state : String
deriving DecidableEq

/-- Embedding of `Media` (`createdAt`, `thumbnailUrl`, `contentUrl`). -/
structure Media where
  id : String
  created_at : String
  thumbnail_url : String
  content_url : String
deriving DecidableEq

/-- Embedding of `ImageMedia`, structurally identical to `Media`. -/
abbrev ImageMedia := Media

/-- Embedding of `VideoMedia`, structurally identical to `Media`. -/
abbrev VideoMedia := Media

/-- Embedding of `Species`. -/
structure Species where
  id : String
  icon_url : String
  name : String
  is_unofficial_name : Bool
  map_url : String
deriving DecidableEq

/-- Embedding of `Suggestion` (`isCollected`, `species`, optional `media`). -/
structure Suggestion where
  is_collected : Bool
  species : Species
  media : Option ImageMedia
deriving DecidableEq

/-- Embedding of `SightingRecognizedBird`. -/
structure SightingRecognizedBird where
  id : String
  match_tokens : List String
  color : String
  text : String
  count : Int
  icon : String
  shareable_match_tokens : List String
  species : Species
deriving DecidableEq

/-- Embedding of `SightingCantDecideWhichBird`; `typename` models the
`__typename` field, which defaults to `"SightingCantDecideWhichBird"`. -/
structure SightingCantDecideWhichBird where
  id : String
  match_tokens : List String
  suggestions : List Suggestion
  typename : String
deriving DecidableEq

/-- A parsed element of `SightingReport.sightings`, whose type in the
source is the union `SightingRecognizedBird | SightingCantDecideWhichBird`. -/
inductive Sighting where
  | recognized (s : SightingRecognizedBird)
  | cantDecide (s : SightingCantDecideWhichBird)
deriving DecidableEq

/-- The match-token list of either sighting variant. -/
def Sighting.matchTokens : Sighting → List String
  | .recognized s => s.match_tokens
  | .cantDecide s => s.match_tokens

/-- Embedding of `SightingReport` (token string plus parsed sightings). -/
structure SightingReport where
  report_token : String
  sightings : List Sighting
deriving DecidableEq

/-- Embedding of `BaseSighting`. -/
structure BaseSighting where
  feeder : Feeder
  medias : List ImageMedia
  sighting_report : SightingReport
  video_media : VideoMedia
deriving DecidableEq

/-- Embedding of `Postcard`. -/
structure Postcard where
  id : String
  created_at : String
deriving DecidableEq

/-- Embedding of `BBEventModel`, the root of the incoming event. -/
structure BBEventModel where
  postcard : Postcard
  sighting : BaseSighting
deriving DecidableEq

/-- Embedding of `SightedBird`, the derived output entity. -/
structure SightedBird where
  species : Species
  image_urls : List String
  video_media : VideoMedia
deriving DecidableEq

/-- Embedding of `AutomationReport`. -/
structure AutomationReport where
  feeder : Feeder
  birds_sighted : List SightedBird
deriving DecidableEq

/-! ## Union discrimination at parse time

Model of pydantic validating one element of
`sightings : list[SightingRecognizedBird | SightingCantDecideWhichBird]`
from a raw mapping.  A union member accepts the mapping when every
required field of that member is present (extra keys are ignored by
pydantic's default config); members are tried in declaration order,
`SightingRecognizedBird` first.  `__typename` is optional with default
`"SightingCantDecideWhichBird"`.  A mapping fitting neither member is a
`ValidationError` (`none`). -/

/-- Raw sighting mapping before union discrimination.  Fields that exist
in only one union member are optional; nested values are taken as already
validated. -/
structure RawSighting where
  id : String
  match_tokens : List String
  color : Option String
  text : Option String
  count : Option Int
  icon : Option String
  shareable_match_tokens : Option (List String)
  species : Option Species
  suggestions : Option (List Suggestion)
  typename : Option String
deriving DecidableEq

/-- Union discrimination for one element of `SightingReport.sightings`. -/
def parseSighting (r : RawSighting) : Option Sighting :=
  match r.color, r.text, r.count, r.icon, r.shareable_match_tokens, r.species with
  | some color, some text, some count, some icon, some smt, some sp =>
    some (Sighting.recognized ⟨r.id, r.match_tokens, color, text, count, icon, smt, sp⟩)
  | _, _, _, _, _, _ =>
    match r.suggestions with
    | some sugs =>
      some (Sighting.cantDecide
        ⟨r.id, r.match_tokens, sugs, r.typename.getD "SightingCantDecideWhichBird"⟩)
    | none => none

/-- True when an optional parsed sighting is a `RecognizedSighting`. -/
def isRecognized : Option Sighting → Bool
  | some (Sighting.recognized _) => true
  | _ => false

/-! ## Reconciliation engine

Embedding of `ReportFormatter.report` (`apps/bb_processor.py`,
lines 275-313). -/

/-- The media-matching loop body: content URLs of the medias whose id
appears among the given match tokens, in media order. -/
def mediaUrls (medias : List Media) (tokens : List String) : List String :=
  (medias.filter fun m => tokens.contains m.id).map Media.content_url

/-- Birds contributed by one sighting: the `isinstance` branch appends a
`SightedBird` for a recognized bird, and the separate
`hasattr(sighting, 'suggestions') and sighting.suggestions` branch
appends one for a can't-decide sighting with a non-empty suggestion
list, using the first suggestion's species. -/
def processSighting (medias : List Media) (video : VideoMedia) (s : Sighting) :
    List SightedBird :=
  let urls := mediaUrls medias s.matchTokens
  (match s with
   | .recognized r => [{ species := r.species, image_urls := urls, video_media := video }]
   | .cantDecide _ => []) ++
  (match s with
   | .recognized _ => []
   | .cantDecide c =>
     match c.suggestions with
     | [] => []
     | sug :: _ => [{ species := sug.species, image_urls := urls, video_media := video }])

/-- Embedding of `ReportFormatter.report`: seed with the event's feeder
and append the birds of each sighting in order. -/
def report (model : BBEventModel) : AutomationReport :=
  { feeder := model.sighting.feeder
    birds_sighted :=
      (model.sighting.sighting_report.sightings.map
        (processSighting model.sighting.medias model.sighting.video_media)).flatten }

/-- Species a sighting contributes to the report, when any: a recognized
bird's own species, or the first suggestion's species. -/
def bestSpecies : Sighting → Option Species
  | .recognized r => some r.species
  | .cantDecide c =>
    match c.suggestions with
    | [] => none
    | sug :: _ => some sug.species

/-- True for the sightings the claims call contributing: a recognized
sighting, or an ambiguous one with a non-empty suggestion sequence. -/
def contributes : Sighting → Bool
  | .recognized _ => true
  | .cantDecide c => !c.suggestions.isEmpty

/-- Replace the sightings list of an event, keeping everything else. -/
def withSightings (model : BBEventModel) (l : List Sighting) : BBEventModel :=
  { model with
    sighting := { model.sighting with
      sighting_report := { model.sighting.sighting_report with sightings := l } } }

/-! ## Presentation renderer

Embedding of `SightedBird.create_slack_blocks` and
`ReportFormatter.format_slack_message`.  The wikipedia collaborator is
passed in as two functions (`wikipedia.search` and `wikipedia.page`);
each may raise, which `Except` models, since the source wraps neither
call in a handler. -/

/-- One rendered message block. -/
inductive Block where
  | header (text : String)
  | divider
  | context (imageUrl : String) (imageAlt : String) (text : String)
  | sectionBlock (text : String) (accessoryImageUrl : String) (accessoryAlt : String)
  | image (title : String) (imageUrl : String) (altText : String)
deriving DecidableEq

/-- Page object returned by the wikipedia collaborator (canonical URL,
title and summary, of which the source uses only URL and title). -/
structure WikiPage where
  url : String
  title : String
  summary : String
deriving DecidableEq

/-- The `wiki_search`/`bird_summary` computation of
`create_slack_blocks`: search for the species name; on an empty result
list fall back to the default text, otherwise fetch the first result's
page and build the linked title (followed by a newline, with no summary
appended).  An exception raised by either collaborator call propagates,
since the source wraps neither in a handler. -/
def birdSummaryOf
    (search : String → Except Unit (List String))
    (page : String → Except Unit WikiPage)
    (bird : SightedBird) : Except Unit String :=
  match search bird.species.name with
  | Except.error e => Except.error e
  | Except.ok [] => Except.ok (bird.species.name ++ " was sighted!")
  | Except.ok (first :: _) =>
    match page first with
    | Except.error e => Except.error e
    | Except.ok p => Except.ok ("*<" ++ p.url ++ "|" ++ p.title ++ ">*" ++ "\n")

/-- The image-block loop of `create_slack_blocks`: one image block per
evidence URL, with a 1-based index in the alt text. -/
def imageBlocksOf (bird : SightedBird) : List Block :=
  bird.image_urls.enum.map fun p =>
    Block.image (bird.species.name ++ " was sighted!") p.2
      (bird.species.name ++ "-" ++ toString (p.1 + 1))

/-- Embedding of `SightedBird.create_slack_blocks`: one context block,
one section block whose text is `birdSummaryOf` and whose accessory is
the species map image, then the image blocks. -/
def create_slack_blocks
    (search : String → Except Unit (List String))
    (page : String → Except Unit WikiPage)
    (bird : SightedBird) : Except Unit (List Block) :=
  match birdSummaryOf search page bird with
  | Except.error e => Except.error e
  | Except.ok birdSummary =>
    Except.ok
      (Block.context bird.species.icon_url bird.species.name
          ("*" ++ bird.species.name ++ "*") ::
        Block.sectionBlock birdSummary bird.species.map_url
          ("You can spot " ++ bird.species.name ++ " in the highlighted area.") ::
        imageBlocksOf bird)

/-- The per-bird rendering loop of `format_slack_message`: each bird's
blocks are appended in report order; an exception from a bird's
rendering aborts the whole message. -/
def renderBirds
    (search : String → Except Unit (List String))
    (page : String → Except Unit WikiPage) : List SightedBird → Except Unit (List Block)
  | [] => Except.ok []
  | bird :: rest =>
    match create_slack_blocks search page bird with
    | Except.error e => Except.error e
    | Except.ok bs =>
      match renderBirds search page rest with
      | Except.error e => Except.error e
      | Except.ok restBs => Except.ok (bs ++ restBs)

/-- Embedding of `ReportFormatter.format_slack_message`: a header block
with the bird count (singular exactly for count 1), a divider, then each
bird's blocks in report order. -/
def format_slack_message
    (search : String → Except Unit (List String))
    (page : String → Except Unit WikiPage)
    (rep : AutomationReport) : Except Unit (List Block) :=
  let birdsCount := rep.birds_sighted.length
  let birdText := if birdsCount = 1 then "bird" else "birds"
  match renderBirds search page rep.birds_sighted with
  | Except.error e => Except.error e
  | Except.ok birdBlocks =>
    Except.ok
      (Block.header ("New Bird Sighting! " ++ toString birdsCount ++ " " ++
          birdText ++ " sighted!") ::
        Block.divider :: birdBlocks)

/-- Section text as the spec's words describe the enriched case: a
linked title followed by a summary.  Stated for comparison with the
text the source actually builds, which appends no summary. -/
def specEnrichedSectionText (p : WikiPage) : String :=
  "*<" ++ p.url ++ "|" ++ p.title ++ ">*" ++ "\n" ++ p.summary

/-! ## Concrete fixtures

Concrete values used by witnesses and counterexamples, mirroring the
fixtures of `tests/test_bb_processor.py`. -/

/-- The standard JWT header JSON text. -/
def headerText : String := "\x7b\"alg\":\"HS256\",\"typ\":\"JWT\"\x7d"

/-- Payload JSON text embedding the dummy report token of the tests. -/
def payloadGood : String :=
  "\x7b\"reportToken\": \"\x7b\\\"dummy\\\":\\\"value\\\"\x7d\"\x7d"

/-- The string value of the `reportToken` member of `payloadGood`. -/
def innerGood : String := "\x7b\"dummy\":\"value\"\x7d"

/-- A well-formed signed token whose payload is `payloadGood`. -/
def tokGood : String := mkToken headerText payloadGood

/-- A well-formed signed token whose payload is the empty JSON object,
so the `reportToken` member is absent. -/
def tokNoReport : String := mkToken headerText "\x7b\x7d"

/-- Fixture species of the recognized sighting. -/
def spT : Species := ⟨"s1", "http://e/i1.jpg", "Test Bird", false, "http://e/m1.jpg"⟩

/-- Fixture species suggested first for the ambiguous sighting. -/
def spA : Species := ⟨"s2", "http://e/i2.jpg", "Possible Bird 1", false, "http://e/m2.jpg"⟩

/-- Fixture species suggested second for the ambiguous sighting. -/
def spB : Species := ⟨"s3", "http://e/i3.jpg", "Possible Bird 2", false, "http://e/m3.jpg"⟩

/-- First fixture image media. -/
def medA : Media := ⟨"m1", "2024-04-06T08:08:36.208Z", "http://e/t1.jpg", "http://e/c1.jpg"⟩

/-- Second fixture image media. -/
def medB : Media := ⟨"m2", "2024-04-06T08:08:36.208Z", "http://e/t2.jpg", "http://e/c2.jpg"⟩

/-- Fixture video media. -/
def vidM : Media := ⟨"v1", "2024-04-06T08:08:36.208Z", "http://e/vt.jpg", "http://e/vc.mp4"⟩

/-- Fixture feeder. -/
def fdrM : Feeder := ⟨"f1", "Test Feeder", "READY"⟩

/-- Fixture recognized sighting matching `medA` plus one unmatched token. -/
def recS : SightingRecognizedBird :=
  ⟨"sg1", ["m1", "zz"], "YELLOW", "Test sighting", 1, "HEART", ["m1"], spT⟩

/-- Fixture ambiguous sighting with two suggestions, the first not
collected and the second collected, matching both medias with the
match tokens listed against the media order. -/
def ambS : SightingCantDecideWhichBird :=
  ⟨"sg2", ["m2", "m1"], [⟨false, spA, none⟩, ⟨true, spB, none⟩], "SightingCantDecideWhichBird"⟩

/-- Fixture ambiguous sighting with no suggestions. -/
def ambE : SightingCantDecideWhichBird := ⟨"sg3", ["m1"], [], "SightingCantDecideWhichBird"⟩

/-- Fixture event with one recognized and one two-suggestion ambiguous
sighting. -/
def evModel : BBEventModel :=
  ⟨⟨"p1", "2024-04-06T08:08:38.055Z"⟩,
   ⟨fdrM, [medA, medB], ⟨"tok", [.recognized recS, .cantDecide ambS]⟩, vidM⟩⟩

/-- Fixture event whose sightings also include an empty-suggestion
ambiguous sighting between the two contributing ones. -/
def evModelSkip : BBEventModel :=
  ⟨⟨"p1", "2024-04-06T08:08:38.055Z"⟩,
   ⟨fdrM, [medA, medB],
    ⟨"tok", [.recognized recS, .cantDecide ambE, .cantDecide ambS]⟩, vidM⟩⟩

/-- Raw sighting mapping carrying only an empty `suggestions` field
besides the shared fields: fits only the can't-decide member. -/
def rawAmbEmpty : RawSighting :=
  ⟨"sg4", ["m1"], none, none, none, none, none, none, some [], none⟩

/-- Raw sighting mapping with one suggestion and no explicit type tag. -/
def rawAmbOne : RawSighting :=
  ⟨"sg5", ["m1"], none, none, none, none, none, none, some [⟨true, spA, none⟩], none⟩

/-- Raw sighting mapping carrying every recognized-sighting field. -/
def rawRec : RawSighting :=
  ⟨"sg6", ["m1"], some "YELLOW", some "Test sighting", some 1, some "HEART",
   some ["m1"], some spT, none, none⟩

/-- Raw sighting mapping that carries `species` and a tagged suggestion
list but lacks the other recognized-only fields (`color` among them). -/
def rawAmbSp : RawSighting :=
  ⟨"sg7", ["m1"], none, none, none, none, none, some spT,
   some [⟨false, spB, none⟩], some "SightingCantDecideWhichBird"⟩

/-- Wiki search stub returning no result. -/
def searchEmpty : String → Except Unit (List String) := fun _ => Except.ok []

/-- Wiki search stub returning one result title. -/
def searchHit : String → Except Unit (List String) := fun _ => Except.ok ["Test Bird"]

/-- Wiki search stub that raises. -/
def searchRaise : String → Except Unit (List String) := fun _ => Except.error ()

/-- Wiki page stub. -/
def pageStub : String → Except Unit WikiPage :=
  fun _ => Except.ok ⟨"http://e/wiki/Test_Bird", "Test Bird", "A test summary."⟩

/-- Fixture sighted bird with one evidence URL. -/
def birdT : SightedBird := ⟨spT, ["http://e/c1.jpg"], vidM⟩

/-- Fixture one-bird automation report. -/
def repOne : AutomationReport := ⟨fdrM, [birdT]⟩

/-- Fixture two-bird automation report. -/
def repTwo : AutomationReport := ⟨fdrM, [birdT, ⟨spA, [], vidM⟩]⟩

/-! ## Theorems about the report-token validator -/

/-- C5 (amended): the validator raises `TokenDecodeError` exactly when
the token string is non-empty and the signed-token decode fails (not
well-formed signed-token syntax, or a payload segment that is not a
valid JSON object); a well-formed token whose payload lacks the
`reportToken` member instead escapes with an uncaught `KeyError`. -/
theorem c5_token_error_classification :
    (∀ v : String, validate_report_token v = TokenOutcome.tokenDecodeError ↔
        ¬ v = "" ∧ jwtDecode v = none) ∧
    ∀ v members, ¬ v = "" → jwtDecode v = some members →
      lookupMember members "reportToken" = none →
      validate_report_token v = TokenOutcome.uncaughtKeyError := by
  constructor
  · intro v
    by_cases hv : v = ""
    · subst hv
      simp [validate_report_token]
    · simp only [validate_report_token, if_neg hv]
      cases hj : jwtDecode v with
      | none => simp [hv]
      | some members =>
        cases hlk : lookupMember members "reportToken" with
        | none => simp [hlk]
        | some j =>
          simp only [hlk]
          cases j with
          | str s => cases hp : parseJsonChars s.data <;> simp [hp]
          | null => simp
          | bool b => simp
          | num l => simp
          | arr elems => simp
          | obj ms => simp
  · intro v members hv hj hlk
    simp [validate_report_token, if_neg hv, hj, hlk]

/-- Witness for C5: a one-segment token string is rejected with
`TokenDecodeError`, and the concrete well-formed token whose payload is
the empty object escapes with the uncaught `KeyError`. -/
theorem c5_token_error_classification_witness :
    validate_report_token "invalid_token" = TokenOutcome.tokenDecodeError ∧
    validate_report_token tokNoReport = TokenOutcome.uncaughtKeyError :=
  ⟨(c5_token_error_classification.1 "invalid_token").mpr ⟨by decide, rfl⟩,
   c5_token_error_classification.2 tokNoReport [] (by decide) rfl rfl⟩

/-- Counterexample for C5 as stated: `tokNoReport` is a well-formed
signed token (its decode succeeds, with an empty payload object), its
payload lacks the `reportToken` member, and validation ends in the
uncaught `KeyError`, not in the `TokenDecodeError` the claim requires. -/
theorem c5_missing_member_not_token_decode_error :
    jwtDecode tokNoReport = some [] ∧
    validate_report_token tokNoReport = TokenOutcome.uncaughtKeyError ∧
    ¬ validate_report_token tokNoReport = TokenOutcome.tokenDecodeError :=
  ⟨rfl, rfl, fun h => nomatch h⟩

/-- C6 (amended): decoding a well-formed token whose payload binds
`reportToken` to the dummy inner JSON string yields the parsed inner
object, and every non-empty syntactically invalid token string fails
with `TokenDecodeError` (the empty string instead escapes with an
uncaught `UnboundLocalError`). -/
theorem c6_token_roundtrip :
    (∀ t members, jwtDecode t = some members →
        lookupMember members "reportToken" = some (Json.str innerGood) →
        validate_report_token t = TokenOutcome.ok (Json.obj [("dummy", Json.str "value")])) ∧
    ∀ t, ¬ t = "" → jwtDecode t = none →
      validate_report_token t = TokenOutcome.tokenDecodeError := by
  constructor
  · intro t members hj hlk
    have ht : ¬ t = "" := by
      intro h
      subst h
      exact Option.noConfusion ((show jwtDecode "" = none from rfl) ▸ hj)
    have hp : parseJsonChars innerGood.data = some (Json.obj [("dummy", Json.str "value")]) := rfl
    simp [validate_report_token, if_neg ht, hj, hlk, hp]
  · intro t ht hj
    simp [validate_report_token, if_neg ht, hj]

/-- Witness for C6: the concrete good token decodes to the dummy
object, and the concrete malformed token string fails with
`TokenDecodeError`. -/
theorem c6_token_roundtrip_witness :
    validate_report_token tokGood = TokenOutcome.ok (Json.obj [("dummy", Json.str "value")]) ∧
    validate_report_token "invalid.token" = TokenOutcome.tokenDecodeError :=
  ⟨c6_token_roundtrip.1 tokGood [("reportToken", Json.str innerGood)] rfl rfl,
   c6_token_roundtrip.2 "invalid.token" (by decide) rfl⟩

/-- Counterexample for C6 as stated: the empty string is not
well-formed signed-token syntax (its decode fails), yet validating it
does not produce `TokenDecodeError` — it escapes with the uncaught
`UnboundLocalError`. -/
theorem c6_empty_string_not_token_decode_error :
    jwtDecode "" = none ∧
    validate_report_token "" = TokenOutcome.uncaughtUnboundLocalError ∧
    ¬ validate_report_token "" = TokenOutcome.tokenDecodeError :=
  ⟨rfl, rfl, fun h => nomatch h⟩

/-- C10: validating an empty report-token string skips the decode
(the string is falsy) and then dereferences the never-assigned local,
so the outcome is the uncaught `UnboundLocalError`: no decoded payload
and neither of the validator's `ValueError` outcomes. -/
theorem c10_empty_token_escapes_taxonomy :
    validate_report_token "" = TokenOutcome.uncaughtUnboundLocalError ∧
    ¬ validate_report_token "" = TokenOutcome.tokenDecodeError ∧
    ¬ validate_report_token "" = TokenOutcome.innerJsonValueError ∧
    ∀ j, ¬ validate_report_token "" = TokenOutcome.ok j := by
  refine ⟨rfl, ?_, ?_, ?_⟩ <;> simp [validate_report_token]

/-! ## Theorems about the reconciliation engine -/

/-- Helper: the species contributed by one sighting, as a list. -/
theorem processSighting_map_species (ms : List Media) (v : VideoMedia) (s : Sighting) :
    (processSighting ms v s).map SightedBird.species = (bestSpecies s).toList := by
  cases s with
  | recognized r => rfl
  | cantDecide c =>
    cases c with
    | mk i mt sugs tn => cases sugs <;> rfl

/-- Helper: the number of birds contributed by one sighting. -/
theorem processSighting_length (ms : List Media) (v : VideoMedia) (s : Sighting) :
    (processSighting ms v s).length = if contributes s then 1 else 0 := by
  cases s with
  | recognized r => rfl
  | cantDecide c =>
    cases c with
    | mk i mt sugs tn => cases sugs <;> rfl

/-- Helper: every bird contributed by a sighting carries the media URLs
matched against that sighting's tokens. -/
theorem processSighting_image_urls (ms : List Media) (v : VideoMedia) (s : Sighting)
    (b : SightedBird) (hb : b ∈ processSighting ms v s) :
    b.image_urls = mediaUrls ms s.matchTokens := by
  cases s with
  | recognized r =>
    simp [processSighting] at hb
    simp [hb]
  | cantDecide c =>
    cases c with
    | mk i mt sugs tn =>
      cases sugs with
      | nil => simp [processSighting] at hb
      | cons sug rest =>
        simp [processSighting] at hb
        simp [hb]

/-- Helper: species of the accumulated report, in sighting order. -/
theorem flatten_map_species (ms : List Media) (v : VideoMedia) (l : List Sighting) :
    ((l.map (processSighting ms v)).flatten).map SightedBird.species
      = l.filterMap bestSpecies := by
  induction l with
  | nil => rfl
  | cons s rest ih =>
    simp only [List.map_cons, List.flatten_cons, List.map_append, ih,
      processSighting_map_species]
    cases hb : bestSpecies s <;> simp [List.filterMap_cons, hb]

/-- Helper: when every sighting contributes, the report has one bird per
sighting. -/
theorem flatten_length_of_contributes (ms : List Media) (v : VideoMedia) :
    ∀ l : List Sighting, (∀ s ∈ l, contributes s = true) →
      ((l.map (processSighting ms v)).flatten).length = l.length := by
  intro l
  induction l with
  | nil => intro _; rfl
  | cons s rest ih =>
    intro h
    have hs := h s (List.mem_cons_self s rest)
    have hr := ih fun x hx => h x (List.mem_cons_of_mem s hx)
    simp [List.flatten_cons, processSighting_length, hs, hr, Nat.add_comm]

/-- C1: when every sighting of the event is recognized or ambiguous with
a non-empty suggestion sequence, the derived report has exactly one bird
per sighting and lists their species in the original sighting order —
the species sequence is exactly the sightings' best-guess species
sequence, so nothing is sorted or deduplicated. -/
theorem c1_report_length_and_order (model : BBEventModel)
    (h : ∀ s ∈ model.sighting.sighting_report.sightings, contributes s = true) :
    (report model).birds_sighted.map SightedBird.species
        = model.sighting.sighting_report.sightings.filterMap bestSpecies ∧
      (report model).birds_sighted.length
        = model.sighting.sighting_report.sightings.length := by
  constructor
  · exact flatten_map_species _ _ _
  · exact flatten_length_of_contributes _ _ _ h

/-- Witness for C1 at the two-sighting fixture event: two birds, species
in sighting order. -/
theorem c1_report_length_and_order_witness :
    (report evModel).birds_sighted.map SightedBird.species = [spT, spA] ∧
      (report evModel).birds_sighted.length = 2 :=
  ⟨(c1_report_length_and_order evModel (by decide)).1,
   (c1_report_length_and_order evModel (by decide)).2⟩

/-- Helper: adding a match token that matches no media id leaves the
collected URLs unchanged. -/
theorem mediaUrls_unmatched_token (ms : List Media) (t : String) (tokens : List String)
    (h : ∀ m ∈ ms, ¬ m.id = t) :
    mediaUrls ms (t :: tokens) = mediaUrls ms tokens := by
  unfold mediaUrls
  congr 1
  apply List.filter_congr
  intro m hm
  have hne := h m hm
  simp [List.contains_cons, hne]

/-- C2: the report is the in-order concatenation of each sighting's
contributed birds, and for every sighting of the event, every bird that
sighting contributes carries exactly the content URLs of the event
medias whose id is among THAT sighting's match tokens, in the event's
media order (a sublist of the media content URLs); prepending a match
token matching no media id to that sighting's tokens changes nothing
(it is silently ignored). -/
theorem c2_image_urls_matched_media (model : BBEventModel) :
    (report model).birds_sighted
        = (model.sighting.sighting_report.sightings.map
            (processSighting model.sighting.medias model.sighting.video_media)).flatten ∧
      ∀ s ∈ model.sighting.sighting_report.sightings,
        ∀ b ∈ processSighting model.sighting.medias model.sighting.video_media s,
          b.image_urls
              = (model.sighting.medias.filter fun m => s.matchTokens.contains m.id).map
                  Media.content_url ∧
            b.image_urls.Sublist (model.sighting.medias.map Media.content_url) ∧
            ∀ t, (∀ m ∈ model.sighting.medias, ¬ m.id = t) →
              mediaUrls model.sighting.medias (t :: s.matchTokens)
                = mediaUrls model.sighting.medias s.matchTokens := by
  refine ⟨rfl, fun s hs b hb => ?_⟩
  have hurls : b.image_urls = mediaUrls model.sighting.medias s.matchTokens :=
    processSighting_image_urls _ _ _ _ hb
  refine ⟨hurls, ?_, fun t ht => mediaUrls_unmatched_token _ _ _ ht⟩
  rw [hurls]
  exact (List.filter_sublist _).map _

/-- Witness for C2 at the fixture event, for the ambiguous sighting and
the bird it contributes: both media URLs, in media order although that
sighting's match tokens list the media ids in the opposite order. -/
theorem c2_image_urls_matched_media_witness :
    (⟨spA, ["http://e/c1.jpg", "http://e/c2.jpg"], vidM⟩ : SightedBird).image_urls
        = (evModel.sighting.medias.filter fun m =>
            (Sighting.cantDecide ambS).matchTokens.contains m.id).map Media.content_url ∧
      (⟨spA, ["http://e/c1.jpg", "http://e/c2.jpg"], vidM⟩ : SightedBird).image_urls.Sublist
        (evModel.sighting.medias.map Media.content_url) :=
  ⟨((c2_image_urls_matched_media evModel).2 (Sighting.cantDecide ambS) (by decide)
      ⟨spA, ["http://e/c1.jpg", "http://e/c2.jpg"], vidM⟩ (by decide)).1,
   ((c2_image_urls_matched_media evModel).2 (Sighting.cantDecide ambS) (by decide)
      ⟨spA, ["http://e/c1.jpg", "http://e/c2.jpg"], vidM⟩ (by decide)).2.1⟩

/-- Helper: an ambiguous sighting with a non-empty suggestion sequence
contributes exactly one bird, built from the first suggestion. -/
theorem processSighting_cantDecide_cons (ms : List Media) (v : VideoMedia)
    (c : SightingCantDecideWhichBird) (sug : Suggestion) (rest : List Suggestion)
    (h : c.suggestions = sug :: rest) :
    processSighting ms v (Sighting.cantDecide c)
      = [{ species := sug.species, image_urls := mediaUrls ms c.match_tokens,
           video_media := v }] := by
  cases c with
  | mk i mt sugs tn =>
    cases h
    rfl

/-- Helper: an ambiguous sighting with no suggestions contributes
nothing. -/
theorem processSighting_cantDecide_nil (ms : List Media) (v : VideoMedia)
    (c : SightingCantDecideWhichBird) (h : c.suggestions = []) :
    processSighting ms v (Sighting.cantDecide c) = [] := by
  cases c with
  | mk i mt sugs tn =>
    cases h
    rfl

/-- C3: an ambiguous sighting whose suggestion sequence starts with
`sug` contributes exactly one bird to the report, at its position in
sighting order, whose species is the FIRST suggestion's species —
whatever the `is_collected` flags and remaining suggestions are, with
no scoring across suggestions. -/
theorem c3_first_suggestion_wins (model : BBEventModel) (xs ys : List Sighting)
    (c : SightingCantDecideWhichBird) (sug : Suggestion) (rest : List Suggestion)
    (hsgt : model.sighting.sighting_report.sightings = xs ++ Sighting.cantDecide c :: ys)
    (hsug : c.suggestions = sug :: rest) :
    (report model).birds_sighted
      = (report (withSightings model xs)).birds_sighted ++
        { species := sug.species,
          image_urls := mediaUrls model.sighting.medias c.match_tokens,
          video_media := model.sighting.video_media } ::
        (report (withSightings model ys)).birds_sighted := by
  simp [report, withSightings, hsgt,
    processSighting_cantDecide_cons _ _ _ _ _ hsug]

/-- Witness for C3 at the fixture event: the ambiguous sighting with
suggestions [not-collected `spA`, collected `spB`] contributes exactly
the `spA` bird. -/
theorem c3_first_suggestion_wins_witness :
    (report evModel).birds_sighted
      = (report (withSightings evModel [Sighting.recognized recS])).birds_sighted ++
        { species := spA,
          image_urls := mediaUrls evModel.sighting.medias ambS.match_tokens,
          video_media := evModel.sighting.video_media } ::
        (report (withSightings evModel [])).birds_sighted :=
  c3_first_suggestion_wins evModel [Sighting.recognized recS] [] ambS
    ⟨false, spA, none⟩ [⟨true, spB, none⟩] rfl rfl

/-- C9: an ambiguous sighting with an empty suggestion sequence
contributes zero birds: the report equals the report of the same event
without that sighting, and in particular has the same length (the
sighting is silently skipped, with no error). -/
theorem c9_empty_suggestions_skipped (model : BBEventModel) (xs ys : List Sighting)
    (c : SightingCantDecideWhichBird)
    (hsgt : model.sighting.sighting_report.sightings = xs ++ Sighting.cantDecide c :: ys)
    (hsug : c.suggestions = []) :
    (report model).birds_sighted
        = (report (withSightings model (xs ++ ys))).birds_sighted ∧
      (report model).birds_sighted.length
        = (report (withSightings model (xs ++ ys))).birds_sighted.length := by
  have hmain : (report model).birds_sighted
      = (report (withSightings model (xs ++ ys))).birds_sighted := by
    simp [report, withSightings, hsgt, processSighting_cantDecide_nil _ _ _ hsug]
  exact ⟨hmain, congrArg List.length hmain⟩

/-- Witness for C9 at the fixture event with an empty-suggestion
sighting placed between the two contributing ones. -/
theorem c9_empty_suggestions_skipped_witness :
    (report evModelSkip).birds_sighted
        = (report (withSightings evModelSkip
            ([Sighting.recognized recS] ++ [Sighting.cantDecide ambS]))).birds_sighted ∧
      (report evModelSkip).birds_sighted.length
        = (report (withSightings evModelSkip
            ([Sighting.recognized recS] ++ [Sighting.cantDecide ambS]))).birds_sighted.length :=
  c9_empty_suggestions_skipped evModelSkip [Sighting.recognized recS]
    [Sighting.cantDecide ambS] ambE rfl rfl

/-! ## Theorems about union discrimination at parse time -/

/-- C4 (amended): a sighting mapping that lacks a recognized-only
required field and carries a `suggestions` field — empty or not — is
parsed as the can't-decide variant, whether or not it carries the
explicit type tag (the tag only defaults); a mapping carrying every
recognized-sighting field is parsed as the recognized variant, which
the union tries first. -/
theorem c4_discrimination (r : RawSighting) :
    ((r.color = none ∨ r.text = none ∨ r.count = none ∨ r.icon = none ∨
        r.shareable_match_tokens = none ∨ r.species = none) →
      ∀ sugs, r.suggestions = some sugs →
        parseSighting r = some (Sighting.cantDecide
          ⟨r.id, r.match_tokens, sugs, r.typename.getD "SightingCantDecideWhichBird"⟩)) ∧
    ∀ color text count icon smt sp,
      r.color = some color → r.text = some text → r.count = some count →
      r.icon = some icon → r.shareable_match_tokens = some smt → r.species = some sp →
      parseSighting r = some (Sighting.recognized
        ⟨r.id, r.match_tokens, color, text, count, icon, smt, sp⟩) := by
  obtain ⟨i, mt, co, te, cnt, ic, smt0, sp0, sugs0, tn⟩ := r
  constructor
  · intro hmiss sugs hsugs
    cases hsugs
    cases co <;> cases te <;> cases cnt <;> cases ic <;> cases smt0 <;> cases sp0 <;>
      first
        | rfl
        | (exfalso
           rcases hmiss with h | h | h | h | h | h <;> exact Option.noConfusion h)
  · intro color text count icon smt sp hc ht hcnt hi hs hsp
    cases hc
    cases ht
    cases hcnt
    cases hi
    cases hs
    cases hsp
    rfl

/-- Witness for C4: the tagless one-suggestion mapping parses as
can't-decide with the defaulted type tag; the mapping that carries
`species` but lacks `color` parses as can't-decide too, keeping its
explicit tag; and the fully-fielded mapping parses as recognized. -/
theorem c4_discrimination_witness :
    parseSighting rawAmbOne
        = some (Sighting.cantDecide
            ⟨"sg5", ["m1"], [⟨true, spA, none⟩], "SightingCantDecideWhichBird"⟩) ∧
      parseSighting rawAmbSp
        = some (Sighting.cantDecide
            ⟨"sg7", ["m1"], [⟨false, spB, none⟩], "SightingCantDecideWhichBird"⟩) ∧
      parseSighting rawRec
        = some (Sighting.recognized
            ⟨"sg6", ["m1"], "YELLOW", "Test sighting", 1, "HEART", ["m1"], spT⟩) :=
  ⟨(c4_discrimination rawAmbOne).1 (Or.inr (Or.inr (Or.inr (Or.inr (Or.inr rfl)))))
     [⟨true, spA, none⟩] rfl,
   (c4_discrimination rawAmbSp).1 (Or.inl rfl) [⟨false, spB, none⟩] rfl,
   (c4_discrimination rawRec).2 "YELLOW" "Test sighting" 1 "HEART" ["m1"] spT
     rfl rfl rfl rfl rfl rfl⟩

/-- Counterexample for C4 as stated: `rawAmbEmpty` carries an empty
`suggestions` field (so not a non-empty one), yet it is not parsed as a
`RecognizedSighting` — it parses, successfully, as the can't-decide
variant. -/
theorem c4_empty_suggestions_not_recognized :
    parseSighting rawAmbEmpty
        = some (Sighting.cantDecide ⟨"sg4", ["m1"], [], "SightingCantDecideWhichBird"⟩) ∧
      isRecognized (parseSighting rawAmbEmpty) = false :=
  ⟨rfl, rfl⟩

/-! ## Theorems about the presentation renderer -/

/-- Helper: a bird's rendered blocks are never header or divider
blocks. -/
theorem create_slack_blocks_not_headdiv
    (search : String → Except Unit (List String))
    (page : String → Except Unit WikiPage) (bird : SightedBird) (bs : List Block)
    (h : create_slack_blocks search page bird = Except.ok bs) :
    ∀ b ∈ bs, (∀ t, ¬ b = Block.header t) ∧ ¬ b = Block.divider := by
  unfold create_slack_blocks at h
  cases hbs : birdSummaryOf search page bird with
  | error e => rw [hbs] at h; exact absurd h (by simp)
  | ok birdSummary =>
    rw [hbs] at h
    cases h
    intro b hb
    simp only [List.mem_cons] at hb
    rcases hb with rfl | rfl | hb
    · exact ⟨fun t => by simp, by simp⟩
    · exact ⟨fun t => by simp, by simp⟩
    · obtain ⟨p, hp, rfl⟩ := List.mem_map.mp hb
      exact ⟨fun t => by simp, by simp⟩

/-- Helper: the per-bird loop never emits header or divider blocks. -/
theorem renderBirds_not_headdiv
    (search : String → Except Unit (List String))
    (page : String → Except Unit WikiPage) :
    ∀ (birds : List SightedBird) (bs : List Block),
      renderBirds search page birds = Except.ok bs →
      ∀ b ∈ bs, (∀ t, ¬ b = Block.header t) ∧ ¬ b = Block.divider := by
  intro birds
  induction birds with
  | nil =>
    intro bs h
    cases h
    intro b hb
    simp at hb
  | cons bird rest ih =>
    intro bs h
    unfold renderBirds at h
    cases hc : create_slack_blocks search page bird with
    | error e => rw [hc] at h; exact absurd h (by simp)
    | ok bs1 =>
      rw [hc] at h
      cases hr : renderBirds search page rest with
      | error e => rw [hr] at h; exact absurd h (by simp)
      | ok bs2 =>
        rw [hr] at h
        cases h
        intro b hb
        rcases List.mem_append.mp hb with hb1 | hb2
        · exact create_slack_blocks_not_headdiv _ _ _ _ hc b hb1
        · exact ih bs2 hr b hb2

/-- C7: whenever the per-bird rendering succeeds, the message is
exactly one header block — whose text counts the report's birds and
says the singular "bird" precisely when that count is 1 — then exactly
one divider block, then the per-bird blocks in report order (which
contain no further header or divider). -/
theorem c7_header_then_divider_then_birds
    (search : String → Except Unit (List String))
    (page : String → Except Unit WikiPage)
    (rep : AutomationReport) (birdBlocks : List Block)
    (h : renderBirds search page rep.birds_sighted = Except.ok birdBlocks) :
    format_slack_message search page rep = Except.ok
        (Block.header ("New Bird Sighting! " ++ toString rep.birds_sighted.length ++
            " " ++ (if rep.birds_sighted.length = 1 then "bird" else "birds") ++
            " sighted!") ::
          Block.divider :: birdBlocks) ∧
      ∀ b ∈ birdBlocks, (∀ t, ¬ b = Block.header t) ∧ ¬ b = Block.divider := by
  refine ⟨?_, renderBirds_not_headdiv _ _ _ _ h⟩
  simp [format_slack_message, h]

/-- Witness for C7: the one-bird fixture report renders with the
header text "1 bird" and the two-bird fixture report with "2 birds". -/
theorem c7_header_then_divider_then_birds_witness :
    format_slack_message searchEmpty pageStub repOne = Except.ok
        (Block.header "New Bird Sighting! 1 bird sighted!" :: Block.divider ::
          Block.context "http://e/i1.jpg" "Test Bird" "*Test Bird*" ::
          Block.sectionBlock "Test Bird was sighted!" "http://e/m1.jpg"
            "You can spot Test Bird in the highlighted area." ::
          [Block.image "Test Bird was sighted!" "http://e/c1.jpg" "Test Bird-1"]) ∧
      format_slack_message searchEmpty pageStub repTwo = Except.ok
        (Block.header "New Bird Sighting! 2 birds sighted!" :: Block.divider ::
          Block.context "http://e/i1.jpg" "Test Bird" "*Test Bird*" ::
          Block.sectionBlock "Test Bird was sighted!" "http://e/m1.jpg"
            "You can spot Test Bird in the highlighted area." ::
          Block.image "Test Bird was sighted!" "http://e/c1.jpg" "Test Bird-1" ::
          Block.context "http://e/i2.jpg" "Possible Bird 1" "*Possible Bird 1*" ::
          [Block.sectionBlock "Possible Bird 1 was sighted!" "http://e/m2.jpg"
            "You can spot Possible Bird 1 in the highlighted area."]) :=
  ⟨(c7_header_then_divider_then_birds searchEmpty pageStub repOne _ rfl).1,
   (c7_header_then_divider_then_birds searchEmpty pageStub repTwo _ rfl).1⟩

/-- C8 (amended): the section text is the fallback (the species name
followed by " was sighted!") when the wiki search succeeds with an
empty result — an empty result never fails rendering — and is the
linked title with no summary appended when the search succeeds
non-empty and the page fetch succeeds; but an exception raised by the
search propagates and fails rendering. -/
theorem c8_section_text_and_lookup_failure
    (search : String → Except Unit (List String))
    (page : String → Except Unit WikiPage) (bird : SightedBird) :
    (search bird.species.name = Except.ok [] →
        create_slack_blocks search page bird = Except.ok
          (Block.context bird.species.icon_url bird.species.name
              ("*" ++ bird.species.name ++ "*") ::
            Block.sectionBlock (bird.species.name ++ " was sighted!")
              bird.species.map_url
              ("You can spot " ++ bird.species.name ++ " in the highlighted area.") ::
            imageBlocksOf bird)) ∧
    (∀ first rest p, search bird.species.name = Except.ok (first :: rest) →
        page first = Except.ok p →
        create_slack_blocks search page bird = Except.ok
          (Block.context bird.species.icon_url bird.species.name
              ("*" ++ bird.species.name ++ "*") ::
            Block.sectionBlock ("*<" ++ p.url ++ "|" ++ p.title ++ ">*" ++ "\n")
              bird.species.map_url
              ("You can spot " ++ bird.species.name ++ " in the highlighted area.") ::
            imageBlocksOf bird)) ∧
    ∀ e, search bird.species.name = Except.error e →
      create_slack_blocks search page bird = Except.error e := by
  refine ⟨?_, ?_, ?_⟩
  · intro h
    simp [create_slack_blocks, birdSummaryOf, h]
  · intro first rest p h hp
    simp [create_slack_blocks, birdSummaryOf, h, hp]
  · intro e h
    simp [create_slack_blocks, birdSummaryOf, h]

/-- Witness for C8: the fixture bird renders with the fallback section
text under an empty search result, and with the linked title under a
hit. -/
theorem c8_section_text_and_lookup_failure_witness :
    create_slack_blocks searchEmpty pageStub birdT = Except.ok
        (Block.context "http://e/i1.jpg" "Test Bird" "*Test Bird*" ::
          Block.sectionBlock "Test Bird was sighted!" "http://e/m1.jpg"
            "You can spot Test Bird in the highlighted area." ::
          imageBlocksOf birdT) ∧
      create_slack_blocks searchHit pageStub birdT = Except.ok
        (Block.context "http://e/i1.jpg" "Test Bird" "*Test Bird*" ::
          Block.sectionBlock "*<http://e/wiki/Test_Bird|Test Bird>*\n" "http://e/m1.jpg"
            "You can spot Test Bird in the highlighted area." ::
          imageBlocksOf birdT) :=
  ⟨(c8_section_text_and_lookup_failure searchEmpty pageStub birdT).1 rfl,
   (c8_section_text_and_lookup_failure searchHit pageStub birdT).2.1 "Test Bird" []
     ⟨"http://e/wiki/Test_Bird", "Test Bird", "A test summary."⟩ rfl rfl⟩

/-- Counterexample for C8 as stated: a raising lookup makes rendering
fail (it is not caught), and the enriched section text the source
builds is the linked title alone, not the linked title followed by the
summary. -/
theorem c8_lookup_exception_fails_rendering :
    create_slack_blocks searchRaise pageStub birdT = Except.error () ∧
      birdSummaryOf searchHit pageStub birdT
        = Except.ok "*<http://e/wiki/Test_Bird|Test Bird>*\n" ∧
      ¬ ("*<http://e/wiki/Test_Bird|Test Bird>*\n"
          = specEnrichedSectionText
              ⟨"http://e/wiki/Test_Bird", "Test Bird", "A test summary."⟩) :=
  ⟨rfl, rfl, by decide⟩

end BB


